import Mathlib

/-!
Verification of the gitea webhook parsing layer of go-scm
(`scm/driver/gitea/webhook.go`).

The embedding below translates `Parse`, its per-event parse helpers, the
native payload structures and the converters directly from the source.
External pieces the source calls but that are declared elsewhere —
the canonical `scm` event types, `convertUser` / `convertRepository` and
the other small projection helpers, the behaviour of Go's
`encoding/json.Unmarshal`, and `hmac.Validate` — are modelled as noted on
each definition: JSON decoding is an oracle parameter (a function giving,
for each payload shape, the populated struct and the optional error that
`json.Unmarshal` would produce on this delivery's bytes), and the HMAC
verifier is a boolean function parameter of `Parse`.
-/

/-- Request body bytes. -/
abbrev Bytes := List Nat

namespace scm

/-- Canonical action taxonomy. The zero value of Go's `scm.Action` is the
first (unknown) element. -/
inductive Action where
  | Unknown
  | Create
  | Delete
  | Update
  | Open
  | Reopen
  | Close
  | Label
  | Unlabel
  | Merge
  | Sync
  | Assigned
  | Unassigned
  | Submitted
  | Dismissed
  | Edited
deriving DecidableEq, Inhabited

/-- Modelled from the spec: canonical user snapshot
(login, display name, email, avatar URL); the `scm` package is not under
`src/`. Go's zero value has every field empty. -/
structure User where
  Login : String
  Name : String
  Email : String
  Avatar : String
deriving DecidableEq, Inhabited

/-- Modelled from the spec: canonical repository snapshot
(namespace, name, default branch, clone URL). -/
structure Repository where
  Namespace : String
  Name : String
  Branch : String
  Clone : String
deriving DecidableEq, Inhabited

/-- Modelled from the spec: author/committer signature on a commit. -/
structure Signature where
  Login : String
  Name : String
  Email : String
  Date : String
deriving DecidableEq, Inhabited

/-- Modelled from the spec: canonical commit snapshot. -/
structure Commit where
  Sha : String
  Message : String
  Link : String
  Author : Signature
  Committer : Signature
deriving DecidableEq, Inhabited

/-- Modelled from the spec: a git reference (`Ref.Sha` may be absent). -/
structure Reference where
  Name : String
  Sha : String
deriving DecidableEq, Inhabited

/-- Modelled from the spec: canonical issue snapshot (minimal fields). -/
structure Issue where
  Number : Int
  Title : String
  Body : String
deriving DecidableEq, Inhabited

/-- Modelled from the spec: canonical comment snapshot. -/
structure Comment where
  Body : String
  Author : User
deriving DecidableEq, Inhabited

/-- Modelled from the spec: canonical pull-request snapshot (minimal fields). -/
structure PullRequest where
  Number : Int
  Title : String
  Body : String
deriving DecidableEq, Inhabited

/-- Modelled from the spec: canonical review payload. -/
structure Review where
  Body : String
  Author : User
deriving DecidableEq, Inhabited

/-- Modelled from the spec: the push-event variant. -/
structure PushHook where
  Ref : String
  Commit : Commit
  Repo : Repository
  Sender : User
deriving DecidableEq, Inhabited

/-- Modelled from the spec: the branch-event variant. -/
structure BranchHook where
  Action : Action
  Ref : Reference
  Repo : Repository
  Sender : User
deriving DecidableEq, Inhabited

/-- Modelled from the spec: the tag-event variant. -/
structure TagHook where
  Action : Action
  Ref : Reference
  Repo : Repository
  Sender : User
deriving DecidableEq, Inhabited

/-- Modelled from the spec: the issue-event variant. -/
structure IssueHook where
  Action : Action
  Issue : Issue
  Repo : Repository
  Sender : User
deriving DecidableEq, Inhabited

/-- Modelled from the spec: the issue-comment variant. -/
structure IssueCommentHook where
  Action : Action
  Issue : Issue
  Comment : Comment
  Repo : Repository
  Sender : User
deriving DecidableEq, Inhabited

/-- Modelled from the spec: the pull-request variant. -/
structure PullRequestHook where
  Action : Action
  PullRequest : PullRequest
  Repo : Repository
  Sender : User
deriving DecidableEq, Inhabited

/-- Modelled from the spec: the pull-request-comment variant. -/
structure PullRequestCommentHook where
  Action : Action
  PullRequest : PullRequest
  Comment : Comment
  Repo : Repository
  Sender : User
deriving DecidableEq, Inhabited

/-- Modelled from the spec: the review variant. Per the spec every variant
carries exactly one `Repository` and one `Sender`. -/
structure ReviewHook where
  Action : Action
  PullRequest : PullRequest
  Repo : Repository
  Sender : User
  Review : Review
deriving DecidableEq, Inhabited

/-- The canonical webhook sum (`scm.Webhook` interface value). -/
inductive Webhook where
  | push (h : PushHook)
  | branch (h : BranchHook)
  | tag (h : TagHook)
  | issue (h : IssueHook)
  | issueComment (h : IssueCommentHook)
  | pullRequest (h : PullRequestHook)
  | pullRequestComment (h : PullRequestCommentHook)
  | review (h : ReviewHook)
deriving DecidableEq, Inhabited

end scm

/-- Errors `Parse` can return. `unknownWebhook` is `scm.UnknownWebhook`,
`signatureInvalid` is `scm.ErrSignatureInvalid`, `decodeError` carries the
message of a `json.Unmarshal` failure (the spec's MalformedPayload kind),
`resolverError` carries an error returned by the caller's secret resolver.
`payloadTooLarge` is modelled from the spec only (the spec's
`PayloadTooLarge` kind); no code path in `webhook.go` produces it. -/
inductive ParseError where
  | unknownWebhook (event : String)
  | signatureInvalid
  | decodeError (msg : String)
  | resolverError (msg : String)
  | payloadTooLarge
deriving DecidableEq, Inhabited

/-- gitea SDK user (third-party `code.gitea.io/sdk/gitea` type, modelled
with the fields the converters read). -/
structure GiteaUser where
  UserName : String
  Email : String
  FullName : String
  AvatarURL : String
deriving DecidableEq, Inhabited

/-- gitea SDK repository (third-party type, modelled with the snapshot
fields the spec names: namespace, name, default branch, clone URL). -/
structure GiteaRepository where
  Namespace : String
  Name : String
  DefaultBranch : String
  CloneURL : String
deriving DecidableEq, Inhabited

/-- gitea SDK pull-request back-reference on an issue
(`*gitea.PullRequestMeta`); only its presence is read. -/
structure PullRequestMeta where
  Merged : Bool
deriving DecidableEq, Inhabited

/-- gitea SDK issue (third-party type, modelled with the fields read here;
`PullRequest` is the nullable back-reference whose presence re-routes
issue comments). -/
structure GiteaIssue where
  Number : Int
  Title : String
  Body : String
  PullRequest : Option PullRequestMeta
deriving DecidableEq, Inhabited

/-- gitea SDK comment (third-party type, minimal fields). -/
structure GiteaComment where
  Body : String
  Poster : GiteaUser
deriving DecidableEq, Inhabited

/-- gitea SDK pull request (third-party type, minimal fields). -/
structure GiteaPullRequest where
  Number : Int
  Title : String
  Body : String
deriving DecidableEq, Inhabited

/-- The gitea driver's `commit` author/committer record, with the fields
`convertPushHook` reads (the struct itself is declared outside `src/`). -/
structure CommitUser where
  Name : String
  Email : String
  Username : String
deriving DecidableEq, Inhabited

/-- The gitea driver's `commit` payload record, with the fields
`convertPushHook` reads (declared outside `src/`). -/
structure GiteaCommit where
  Message : String
  Author : CommitUser
  Committer : CommitUser
  Timestamp : String
deriving DecidableEq, Inhabited

/-- gitea push webhook payload (`pushHook` in webhook.go). -/
structure pushHook where
  Secret : String
  Ref : String
  Before : String
  After : String
  Compare : String
  Commits : List GiteaCommit
  Repository : GiteaRepository
  Pusher : GiteaUser
  Sender : GiteaUser
deriving DecidableEq, Inhabited

/-- gitea create/delete webhook payload (`createHook` in webhook.go). -/
structure createHook where
  Ref : String
  RefType : String
  Sha : String
  DefaultBranch : String
  Repository : GiteaRepository
  Sender : GiteaUser
deriving DecidableEq, Inhabited

/-- gitea issue / issue-comment webhook payload (`issueHook` in webhook.go). -/
structure issueHook where
  Action : String
  Issue : GiteaIssue
  Comment : GiteaComment
  Repository : GiteaRepository
  Sender : GiteaUser
deriving DecidableEq, Inhabited

/-- gitea pull-request webhook payload (`pullRequestHook` in webhook.go). -/
structure pullRequestHook where
  Action : String
  Number : Int
  PullRequest : GiteaPullRequest
  Repository : GiteaRepository
  Sender : GiteaUser
deriving DecidableEq, Inhabited

/-- gitea pull-request review sub-payload (`pullRequestReviewPayload`). -/
structure pullRequestReviewPayload where
  Type' : String
  Content : String
deriving DecidableEq, Inhabited

/-- gitea pull-request review webhook payload (`pullRequestReviewHook`). -/
structure pullRequestReviewHook where
  Action : String
  Number : Int
  PullRequest : GiteaPullRequest
  Repository : GiteaRepository
  Sender : GiteaUser
  Review : pullRequestReviewPayload
deriving DecidableEq, Inhabited

/-- Modelled from the spec: `convertUser` (gitea driver helper outside
`src/`) projects a gitea user to the canonical snapshot
(login, display name, email, avatar URL). -/
def convertUser (u : GiteaUser) : scm.User :=
  { Login := u.UserName
    Name := u.FullName
    Email := u.Email
    Avatar := u.AvatarURL }

/-- Modelled from the spec: `convertRepository` (outside `src/`) projects a
gitea repository to the canonical snapshot. -/
def convertRepository (r : GiteaRepository) : scm.Repository :=
  { Namespace := r.Namespace
    Name := r.Name
    Branch := r.DefaultBranch
    Clone := r.CloneURL }

/-- Modelled from the spec: `convertIssue` (outside `src/`), a denormalizing
copy of the issue fields. -/
def convertIssue (i : GiteaIssue) : scm.Issue :=
  { Number := i.Number
    Title := i.Title
    Body := i.Body }

/-- Modelled from the spec: `convertIssueComment` (outside `src/`). -/
def convertIssueComment (c : GiteaComment) : scm.Comment :=
  { Body := c.Body
    Author := convertUser c.Poster }

/-- Modelled from the spec: `convertPullRequest` (outside `src/`). -/
def convertPullRequest (p : GiteaPullRequest) : scm.PullRequest :=
  { Number := p.Number
    Title := p.Title
    Body := p.Body }

/-- Modelled from the spec: `convertPullRequestFromIssue` (outside `src/`),
viewing an issue-shaped resource as a pull request. -/
def convertPullRequestFromIssue (i : GiteaIssue) : scm.PullRequest :=
  { Number := i.Number
    Title := i.Title
    Body := i.Body }

/-- `convertTagHook` from webhook.go. -/
def convertTagHook (dst : createHook) (action : scm.Action) : scm.TagHook :=
  { Action := action
    Ref := { Name := dst.Ref, Sha := dst.Sha }
    Repo := convertRepository dst.Repository
    Sender := convertUser dst.Sender }

/-- `convertBranchHook` from webhook.go (no `Sha` on the reference). -/
def convertBranchHook (dst : createHook) (action : scm.Action) : scm.BranchHook :=
  { Action := action
    Ref := { Name := dst.Ref, Sha := "" }
    Repo := convertRepository dst.Repository
    Sender := convertUser dst.Sender }

/-- `convertPushHook` from webhook.go: with a non-empty commit list the
first commit supplies message/author/committer; otherwise the pusher
identity is the fallback and the message is left empty. -/
def convertPushHook (dst : pushHook) : scm.PushHook :=
  match dst.Commits with
  | c :: _ =>
    { Ref := dst.Ref
      Commit :=
        { Sha := dst.After
          Message := c.Message
          Link := dst.Compare
          Author :=
            { Login := c.Author.Username
              Email := c.Author.Email
              Name := c.Author.Name
              Date := c.Timestamp }
          Committer :=
            { Login := c.Committer.Username
              Email := c.Committer.Email
              Name := c.Committer.Name
              Date := c.Timestamp } }
      Repo := convertRepository dst.Repository
      Sender := convertUser dst.Sender }
  | [] =>
    { Ref := dst.Ref
      Commit :=
        { Sha := dst.After
          Message := ""
          Link := dst.Compare
          Author :=
            { Login := dst.Pusher.UserName
              Email := dst.Pusher.Email
              Name := dst.Pusher.FullName
              Date := "" }
          Committer :=
            { Login := dst.Pusher.UserName
              Email := dst.Pusher.Email
              Name := dst.Pusher.FullName
              Date := "" } }
      Repo := convertRepository dst.Repository
      Sender := convertUser dst.Sender }

/-- `convertReviewAction` from webhook.go: the review sub-payload type
string picks the canonical action; the default is the zero value. -/
def convertReviewAction (src : String) : scm.Action :=
  match src with
  | "pull_request_review_approved" => scm.Action.Submitted
  | "pull_request_review_comment" => scm.Action.Edited
  | "pull_request_review_rejected" => scm.Action.Dismissed
  | _ => scm.Action.Unknown

/-- `convertAction` from webhook.go: the table-driven, case-sensitive,
many-to-one verb mapper; unknown verbs fall to the zero value. -/
def convertAction (src : String) : scm.Action :=
  match src with
  | "create" | "created" => scm.Action.Create
  | "delete" | "deleted" => scm.Action.Delete
  | "update" | "updated" | "edit" | "edited" => scm.Action.Update
  | "open" | "opened" => scm.Action.Open
  | "reopen" | "reopened" => scm.Action.Reopen
  | "close" | "closed" => scm.Action.Close
  | "label" | "labeled" | "label_updated" => scm.Action.Label
  | "unlabel" | "unlabeled" | "label_cleared" => scm.Action.Unlabel
  | "merge" | "merged" => scm.Action.Merge
  | "synchronize" | "synchronized" => scm.Action.Sync
  | "assigned" => scm.Action.Assigned
  | "unassigned" => scm.Action.Unassigned
  | "reviewed" => scm.Action.Submitted
  | _ => scm.Action.Unknown

/-- The verbs appearing in `convertAction`'s table. -/
def actionVerbs : List String :=
  ["create", "created", "delete", "deleted", "update", "updated", "edit",
   "edited", "open", "opened", "reopen", "reopened", "close", "closed",
   "label", "labeled", "label_updated", "unlabel", "unlabeled",
   "label_cleared", "merge", "merged", "synchronize", "synchronized",
   "assigned", "unassigned", "reviewed"]

/-- `convertPullRequestHook` from webhook.go. -/
def convertPullRequestHook (dst : pullRequestHook) : scm.PullRequestHook :=
  { Action := convertAction dst.Action
    PullRequest := convertPullRequest dst.PullRequest
    Repo := convertRepository dst.Repository
    Sender := convertUser dst.Sender }

/-- `convertPullRequestReviewPayload` from webhook.go: the review body and
the sender as the review author. -/
def convertPullRequestReviewPayload (dst : pullRequestReviewHook) : scm.Review :=
  { Body := dst.Review.Content
    Author := convertUser dst.Sender }

/-- `convertPullRequestReviewHook` from webhook.go. The Go composite
literal sets `Action`, `PullRequest`, `Repo` and `Review` only, leaving
`Sender` at its zero value. -/
def convertPullRequestReviewHook (dst : pullRequestReviewHook) : scm.ReviewHook :=
  { Action := convertReviewAction dst.Review.Type'
    PullRequest := convertPullRequest dst.PullRequest
    Repo := convertRepository dst.Repository
    Sender := default
    Review := convertPullRequestReviewPayload dst }

/-- `convertPullRequestCommentHook` from webhook.go. -/
def convertPullRequestCommentHook (dst : issueHook) : scm.PullRequestCommentHook :=
  { Action := convertAction dst.Action
    PullRequest := convertPullRequestFromIssue dst.Issue
    Comment := convertIssueComment dst.Comment
    Repo := convertRepository dst.Repository
    Sender := convertUser dst.Sender }

/-- `convertIssueHook` from webhook.go. -/
def convertIssueHook (dst : issueHook) : scm.IssueHook :=
  { Action := convertAction dst.Action
    Issue := convertIssue dst.Issue
    Repo := convertRepository dst.Repository
    Sender := convertUser dst.Sender }

/-- `convertIssueCommentHook` from webhook.go. -/
def convertIssueCommentHook (dst : issueHook) : scm.IssueCommentHook :=
  { Action := convertAction dst.Action
    Issue := convertIssue dst.Issue
    Comment := convertIssueComment dst.Comment
    Repo := convertRepository dst.Repository
    Sender := convertUser dst.Sender }

/-- The outcome of `json.Unmarshal` into one destination struct: the
populated value (fields not set by the document keep their zero values,
also on failure) and the optional error message. -/
structure DecodeResult (α : Type) where
  value : α
  error : Option String
deriving DecidableEq, Inhabited

/-- Decode oracle: the behaviour of Go's `encoding/json.Unmarshal` on this
delivery for each destination payload shape. `Parse` is parameterized over
it because `encoding/json` is outside the repository. -/
structure Decoders where
  push : Bytes → DecodeResult pushHook
  create : Bytes → DecodeResult createHook
  issue : Bytes → DecodeResult issueHook
  pullRequest : Bytes → DecodeResult pullRequestHook
  review : Bytes → DecodeResult pullRequestReviewHook

/-- `parsePushHook` from webhook.go: the converted hook, the decoded native
struct (whose `Secret` the dispatcher reads), and the decode error. -/
def parsePushHook (dec : Decoders) (data : Bytes) :
    Option scm.Webhook × pushHook × Option ParseError :=
  let r := dec.push data
  (some (scm.Webhook.push (convertPushHook r.value)), r.value,
    r.error.map ParseError.decodeError)

/-- `parseCreateHook` from webhook.go: branch on the decoded `ref_type`,
failing closed on anything but "tag" and "branch". -/
def parseCreateHook (dec : Decoders) (data : Bytes) :
    Option scm.Webhook × Option ParseError :=
  let r := dec.create data
  match r.value.RefType with
  | "tag" =>
    (some (scm.Webhook.tag (convertTagHook r.value scm.Action.Create)),
      r.error.map ParseError.decodeError)
  | "branch" =>
    (some (scm.Webhook.branch (convertBranchHook r.value scm.Action.Create)),
      r.error.map ParseError.decodeError)
  | rt => (none, some (ParseError.unknownWebhook rt))

/-- `parseDeleteHook` from webhook.go; same shape with the delete action. -/
def parseDeleteHook (dec : Decoders) (data : Bytes) :
    Option scm.Webhook × Option ParseError :=
  let r := dec.create data
  match r.value.RefType with
  | "tag" =>
    (some (scm.Webhook.tag (convertTagHook r.value scm.Action.Delete)),
      r.error.map ParseError.decodeError)
  | "branch" =>
    (some (scm.Webhook.branch (convertBranchHook r.value scm.Action.Delete)),
      r.error.map ParseError.decodeError)
  | rt => (none, some (ParseError.unknownWebhook rt))

/-- `parseIssueHook` from webhook.go. -/
def parseIssueHook (dec : Decoders) (data : Bytes) :
    Option scm.Webhook × Option ParseError :=
  let r := dec.issue data
  (some (scm.Webhook.issue (convertIssueHook r.value)),
    r.error.map ParseError.decodeError)

/-- `parseIssueCommentHook` from webhook.go: a pull-request back-reference
on the inner issue re-routes to the pull-request-comment variant. -/
def parseIssueCommentHook (dec : Decoders) (data : Bytes) :
    Option scm.Webhook × Option ParseError :=
  let r := dec.issue data
  match r.value.Issue.PullRequest with
  | some _ =>
    (some (scm.Webhook.pullRequestComment (convertPullRequestCommentHook r.value)),
      r.error.map ParseError.decodeError)
  | none =>
    (some (scm.Webhook.issueComment (convertIssueCommentHook r.value)),
      r.error.map ParseError.decodeError)

/-- `parsePullRequestHook` from webhook.go. -/
def parsePullRequestHook (dec : Decoders) (data : Bytes) :
    Option scm.Webhook × Option ParseError :=
  let r := dec.pullRequest data
  (some (scm.Webhook.pullRequest (convertPullRequestHook r.value)),
    r.error.map ParseError.decodeError)

/-- `parsePullRequestReviewHook` from webhook.go. -/
def parsePullRequestReviewHook (dec : Decoders) (data : Bytes) :
    Option scm.Webhook × Option ParseError :=
  let r := dec.review data
  (some (scm.Webhook.review (convertPullRequestReviewHook r.value)),
    r.error.map ParseError.decodeError)

/-- The `switch event` statement of `Parse`: the routed hook, the embedded
secret (only a push payload carries one), and the routing/decoding error.
The default case fails closed with `UnknownWebhook`. -/
def routeEvent (dec : Decoders) (event : String) (data : Bytes) :
    Option scm.Webhook × String × Option ParseError :=
  match event with
  | "push" =>
    let (hook, push, err) := parsePushHook dec data
    (hook, push.Secret, err)
  | "create" =>
    let (hook, err) := parseCreateHook dec data
    (hook, "", err)
  | "delete" =>
    let (hook, err) := parseDeleteHook dec data
    (hook, "", err)
  | "issues" =>
    let (hook, err) := parseIssueHook dec data
    (hook, "", err)
  | "issue_comment" =>
    let (hook, err) := parseIssueCommentHook dec data
    (hook, "", err)
  | "pull_request" =>
    let (hook, err) := parsePullRequestHook dec data
    (hook, "", err)
  | "reviewed" =>
    let (hook, err) := parsePullRequestReviewHook dec data
    (hook, "", err)
  | _ => (none, "", some (ParseError.unknownWebhook event))

/-- `Parse` from webhook.go. The body is read through
`io.LimitReader(req.Body, 10000000)` — modelled as `body.take 10000000`.
`validate` stands for `hmac.Validate(sha256.New, data, key, signature)`
(the `pkg/hmac` package is outside `src/`); `fn` is the caller's
`scm.SecretFunc`; `sigHeader` is the `X-Gitea-Signature` header value and
`formSecret` the request's "secret" form value, both empty when absent.
The result mirrors Go's `(scm.Webhook, error)` pair. -/
def Parse (dec : Decoders) (validate : Bytes → String → String → Bool)
    (fn : scm.Webhook → Except String String)
    (event sigHeader formSecret : String) (body : Bytes) :
    Option scm.Webhook × Option ParseError :=
  let data := body.take 10000000
  match routeEvent dec event data with
  | (_, _, some e) => (none, some e)
  | (none, _, none) => (none, none)
  | (some hook, secret0, none) =>
    let secret := if secret0 = "" then formSecret else secret0
    match fn hook with
    | Except.error e => (some hook, some (ParseError.resolverError e))
    | Except.ok key =>
      if key = "" then (some hook, none)
      else if sigHeader = "" ∧ secret = "" then
        (some hook, some ParseError.signatureInvalid)
      else if sigHeader = "" ∧ secret ≠ "" ∧ secret ≠ key then
        (some hook, some ParseError.signatureInvalid)
      else if sigHeader ≠ "" ∧ validate data key sigHeader = false then
        (some hook, some ParseError.signatureInvalid)
      else (some hook, none)

/-- A sample gitea user with every snapshot field populated. -/
def aliceGitea : GiteaUser :=
  { UserName := "alice"
    Email := "alice@example.com"
    FullName := "Alice"
    AvatarURL := "https://example.com/alice.png" }

/-- A sample gitea repository with every snapshot field populated. -/
def sampleRepo : GiteaRepository :=
  { Namespace := "octocat"
    Name := "hello-world"
    DefaultBranch := "main"
    CloneURL := "https://example.com/hello-world.git" }

/-- A sample push payload with an embedded secret and no commits. -/
def samplePush : pushHook :=
  { Secret := "topsecret"
    Ref := "refs/heads/main"
    Before := "0000"
    After := "1111"
    Compare := "https://example.com/compare"
    Commits := []
    Repository := sampleRepo
    Pusher := aliceGitea
    Sender := aliceGitea }

/-- A sample push payload with no embedded secret. -/
def samplePushNoSecret : pushHook :=
  { samplePush with Secret := "" }

/-- A sample commit record for the one-commit push case. -/
def sampleCommit : GiteaCommit :=
  { Message := "fix build"
    Author := { Name := "Alice", Email := "alice@example.com", Username := "alice" }
    Committer := { Name := "Bob", Email := "bob@example.com", Username := "bob" }
    Timestamp := "2020-01-02T03:04:05Z" }

/-- A sample push payload carrying exactly one commit. -/
def samplePushOneCommit : pushHook :=
  { samplePush with Commits := [sampleCommit] }

/-- A sample create/delete payload with ref type "tag". -/
def sampleCreate : createHook :=
  { Ref := "v1.0.0"
    RefType := "tag"
    Sha := "2222"
    DefaultBranch := "main"
    Repository := sampleRepo
    Sender := aliceGitea }

/-- A create/delete payload whose ref type is outside tag/branch. -/
def weirdCreate : createHook :=
  { sampleCreate with RefType := "repository" }

/-- A sample issue-comment payload whose issue has no pull-request
back-reference. -/
def sampleIssuePayload : issueHook :=
  { Action := "created"
    Issue := { Number := 1, Title := "an issue", Body := "text", PullRequest := none }
    Comment := { Body := "a comment", Poster := aliceGitea }
    Repository := sampleRepo
    Sender := aliceGitea }

/-- A sample issue-comment payload whose issue carries a pull-request
back-reference. -/
def sampleIssuePRPayload : issueHook :=
  { sampleIssuePayload with
      Issue := { Number := 1, Title := "an issue", Body := "text",
                 PullRequest := some { Merged := false } } }

/-- A sample pull-request payload. -/
def samplePR : pullRequestHook :=
  { Action := "opened"
    Number := 2
    PullRequest := { Number := 2, Title := "a pr", Body := "text" }
    Repository := sampleRepo
    Sender := aliceGitea }

/-- A sample pull-request review payload with a populated sender. -/
def sampleReviewPayload : pullRequestReviewHook :=
  { Action := "reviewed"
    Number := 2
    PullRequest := { Number := 2, Title := "a pr", Body := "text" }
    Repository := sampleRepo
    Sender := aliceGitea
    Review := { Type' := "pull_request_review_approved", Content := "lgtm" } }

/-- Oracle for a delivery whose body decodes cleanly into the sample
payloads (what `json.Unmarshal` yields on the corresponding documents). -/
def sampleDec : Decoders :=
  { push := fun _ => ⟨samplePush, none⟩
    create := fun _ => ⟨sampleCreate, none⟩
    issue := fun _ => ⟨sampleIssuePayload, none⟩
    pullRequest := fun _ => ⟨samplePR, none⟩
    review := fun _ => ⟨sampleReviewPayload, none⟩ }

/-- Oracle whose push payload has no embedded secret. -/
def noSecretDec : Decoders :=
  { sampleDec with push := fun _ => ⟨samplePushNoSecret, none⟩ }

/-- Oracle whose issue payload carries the pull-request back-reference. -/
def issuePRDec : Decoders :=
  { sampleDec with issue := fun _ => ⟨sampleIssuePRPayload, none⟩ }

/-- Oracle whose create payload has an unrecognized ref type. -/
def weirdCreateDec : Decoders :=
  { sampleDec with create := fun _ => ⟨weirdCreate, none⟩ }

/-- Oracle for a body that is not valid JSON: every shape decodes with an
error, leaving the destination struct at its zero values (what
`json.Unmarshal` does on input such as "not json"). -/
def badDec : Decoders :=
  { push := fun _ => ⟨default, some "invalid json"⟩
    create := fun _ => ⟨default, some "invalid json"⟩
    issue := fun _ => ⟨default, some "invalid json"⟩
    pullRequest := fun _ => ⟨default, some "invalid json"⟩
    review := fun _ => ⟨default, some "invalid json"⟩ }

/-- Oracle for a truncated document that sets `ref_type` to "tag" before
failing (partial decode). -/
def badTagDec : Decoders :=
  { badDec with
      create := fun _ =>
        ⟨{ (default : createHook) with RefType := "tag" },
          some "unexpected end of JSON input"⟩ }

/-- An HMAC verifier that rejects everything (a delivery whose header
signature does not match). -/
def validateNever : Bytes → String → String → Bool := fun _ _ _ => false

/-- An HMAC verifier that accepts everything (a delivery whose header
signature matches). -/
def validateAlways : Bytes → String → String → Bool := fun _ _ _ => true

/-- A secret resolver returning a fixed key and no error. -/
def resolveKey (k : String) : scm.Webhook → Except String String :=
  fun _ => Except.ok k

/-- When routing/decoding succeeds, `Parse` specializes to the
authentication tail of the dispatcher (the code after line 57). -/
theorem parse_auth_eq (dec : Decoders) (validate : Bytes → String → String → Bool)
    (fn : scm.Webhook → Except String String)
    (event sigHeader formSecret : String) (body : Bytes)
    (hook : scm.Webhook) (secret0 : String)
    (h : routeEvent dec event (body.take 10000000) = (some hook, secret0, none)) :
    Parse dec validate fn event sigHeader formSecret body =
      (let secret := if secret0 = "" then formSecret else secret0
       match fn hook with
       | Except.error e => (some hook, some (ParseError.resolverError e))
       | Except.ok key =>
         if key = "" then (some hook, none)
         else if sigHeader = "" ∧ secret = "" then
           (some hook, some ParseError.signatureInvalid)
         else if sigHeader = "" ∧ secret ≠ "" ∧ secret ≠ key then
           (some hook, some ParseError.signatureInvalid)
         else if sigHeader ≠ "" ∧ validate (body.take 10000000) key sigHeader = false then
           (some hook, some ParseError.signatureInvalid)
         else (some hook, none)) := by
  simp only [Parse]
  rw [h]

/-- When routing/decoding fails, `Parse` returns no event and that error. -/
theorem parse_err_eq (dec : Decoders) (validate : Bytes → String → String → Bool)
    (fn : scm.Webhook → Except String String)
    (event sigHeader formSecret : String) (body : Bytes)
    (hk : Option scm.Webhook) (secret0 : String) (e : ParseError)
    (h : routeEvent dec event (body.take 10000000) = (hk, secret0, some e)) :
    Parse dec validate fn event sigHeader formSecret body = (none, some e) := by
  simp only [Parse]
  rw [h]
  cases hk <;> rfl

/-- When routing/decoding succeeds, the first component of `Parse`'s result
is that hook, whatever the authentication outcome. -/
theorem parse_fst_of_route (dec : Decoders) (validate : Bytes → String → String → Bool)
    (fn : scm.Webhook → Except String String)
    (event sigHeader formSecret : String) (body : Bytes)
    (hook : scm.Webhook) (secret0 : String)
    (h : routeEvent dec event (body.take 10000000) = (some hook, secret0, none)) :
    (Parse dec validate fn event sigHeader formSecret body).1 = some hook := by
  rw [parse_auth_eq dec validate fn event sigHeader formSecret body hook secret0 h]
  dsimp only
  cases fn hook with
  | error e => rfl
  | ok key =>
    dsimp only
    split_ifs <;> rfl

/-- C9: `convertAction` is a total, case-sensitive, many-to-one pure map
from provider verbs to canonical actions: "close" and "closed" both map to
`Close`, and every verb outside its table — "archived" among them — maps
to the zero value `Unknown` without producing an error. -/
theorem c9_convert_action_table :
    convertAction "close" = scm.Action.Close ∧
    convertAction "closed" = scm.Action.Close ∧
    convertAction "archived" = scm.Action.Unknown ∧
    ∀ s : String, s ∉ actionVerbs → convertAction s = scm.Action.Unknown := by
  refine ⟨rfl, rfl, rfl, ?_⟩
  intro s hs
  unfold convertAction
  split
  all_goals first
    | rfl
    | (exfalso; apply hs; simp_all [actionVerbs])

/-- Witness for C9 at the concrete verbs "archived" and "Close" (case
sensitivity: the capitalized verb is outside the table). -/
theorem c9_convert_action_table_witness :
    convertAction "archived" = scm.Action.Unknown ∧
    convertAction "Close" = scm.Action.Unknown :=
  ⟨c9_convert_action_table.2.2.2 "archived" (by decide),
   c9_convert_action_table.2.2.2 "Close" (by decide)⟩

/-- C6: a push payload with an empty commit list converts with the pusher
identity as both author and committer and an empty message; a push payload
with exactly one commit takes author, committer and message from that
commit. -/
theorem c6_push_commit_fallback (p : pushHook) :
    (p.Commits = [] →
      (convertPushHook p).Commit.Author.Login = p.Pusher.UserName ∧
      (convertPushHook p).Commit.Committer.Login = p.Pusher.UserName ∧
      (convertPushHook p).Commit.Message = "") ∧
    ∀ c : GiteaCommit, p.Commits = [c] →
      (convertPushHook p).Commit.Author =
        { Login := c.Author.Username, Email := c.Author.Email,
          Name := c.Author.Name, Date := c.Timestamp } ∧
      (convertPushHook p).Commit.Committer =
        { Login := c.Committer.Username, Email := c.Committer.Email,
          Name := c.Committer.Name, Date := c.Timestamp } ∧
      (convertPushHook p).Commit.Message = c.Message := by
  constructor
  · intro h
    simp [convertPushHook, h]
  · intro c h
    simp [convertPushHook, h]

/-- Witness for C6 at a zero-commit and a one-commit sample payload. -/
theorem c6_push_commit_fallback_witness :
    ((convertPushHook samplePush).Commit.Author.Login = samplePush.Pusher.UserName ∧
     (convertPushHook samplePush).Commit.Committer.Login = samplePush.Pusher.UserName ∧
     (convertPushHook samplePush).Commit.Message = "") ∧
    ((convertPushHook samplePushOneCommit).Commit.Author =
       { Login := sampleCommit.Author.Username, Email := sampleCommit.Author.Email,
         Name := sampleCommit.Author.Name, Date := sampleCommit.Timestamp } ∧
     (convertPushHook samplePushOneCommit).Commit.Committer =
       { Login := sampleCommit.Committer.Username, Email := sampleCommit.Committer.Email,
         Name := sampleCommit.Committer.Name, Date := sampleCommit.Timestamp } ∧
     (convertPushHook samplePushOneCommit).Commit.Message = sampleCommit.Message) :=
  ⟨(c6_push_commit_fallback samplePush).1 rfl,
   (c6_push_commit_fallback samplePushOneCommit).2 sampleCommit rfl⟩

/-- C8: an issue_comment payload whose inner issue carries a pull-request
back-reference parses to the pull-request-comment variant; one without the
back-reference parses to the issue-comment variant. -/
theorem c8_issue_comment_routing (dec : Decoders)
    (validate : Bytes → String → String → Bool)
    (fn : scm.Webhook → Except String String)
    (sigH form : String) (body : Bytes)
    (hok : (dec.issue (body.take 10000000)).error = none) :
    ((dec.issue (body.take 10000000)).value.Issue.PullRequest.isSome = true →
      (Parse dec validate fn "issue_comment" sigH form body).1 =
        some (scm.Webhook.pullRequestComment
          (convertPullRequestCommentHook (dec.issue (body.take 10000000)).value))) ∧
    ((dec.issue (body.take 10000000)).value.Issue.PullRequest = none →
      (Parse dec validate fn "issue_comment" sigH form body).1 =
        some (scm.Webhook.issueComment
          (convertIssueCommentHook (dec.issue (body.take 10000000)).value))) := by
  constructor
  · intro hpr
    rcases hsome : (dec.issue (body.take 10000000)).value.Issue.PullRequest with _ | pm
    · rw [hsome] at hpr
      simp at hpr
    · refine parse_fst_of_route dec validate fn "issue_comment" sigH form body _ "" ?_
      simp only [routeEvent, parseIssueCommentHook]
      rw [hsome, hok]
      rfl
  · intro hnone
    refine parse_fst_of_route dec validate fn "issue_comment" sigH form body _ "" ?_
    simp only [routeEvent, parseIssueCommentHook]
    rw [hnone, hok]
    rfl

/-- Witness for C8 at the two concrete sample payloads. -/
theorem c8_issue_comment_routing_witness :
    (Parse issuePRDec validateAlways (resolveKey "") "issue_comment" "" "" []).1 =
      some (scm.Webhook.pullRequestComment (convertPullRequestCommentHook sampleIssuePRPayload)) ∧
    (Parse sampleDec validateAlways (resolveKey "") "issue_comment" "" "" []).1 =
      some (scm.Webhook.issueComment (convertIssueCommentHook sampleIssuePayload)) := by
  constructor
  · simpa using
      (c8_issue_comment_routing issuePRDec validateAlways (resolveKey "") "" "" [] rfl).1 rfl
  · simpa using
      (c8_issue_comment_routing sampleDec validateAlways (resolveKey "") "" "" [] rfl).2 rfl

/-- C1: once a delivery decodes, the resolved key is non-empty and the
X-Gitea-Signature header is non-empty, `Parse`'s outcome is decided solely
by HMAC verification of that header signature over the read body bytes
with the resolved key: `ErrSignatureInvalid` exactly when verification
fails, success exactly when it passes, whatever the embedded or form
secret (`secret0`, `form`) are — including an embedded secret equal to the
key. -/
theorem c1_header_signature_wins (dec : Decoders)
    (validate : Bytes → String → String → Bool)
    (fn : scm.Webhook → Except String String)
    (event sigH form : String) (body : Bytes)
    (hook : scm.Webhook) (secret0 key : String)
    (hroute : routeEvent dec event (body.take 10000000) = (some hook, secret0, none))
    (hfn : fn hook = Except.ok key) (hkey : key ≠ "") (hsig : sigH ≠ "") :
    Parse dec validate fn event sigH form body =
      (some hook,
        if validate (body.take 10000000) key sigH = true then none
        else some ParseError.signatureInvalid) := by
  rw [parse_auth_eq dec validate fn event sigH form body hook secret0 hroute]
  dsimp only
  rw [hfn]
  cases hv : validate (body.take 10000000) key sigH <;>
    simp [hkey, hsig, hv]

/-- Witness for C1: the embedded push secret equals the resolved key, yet
a failing header verification still yields `ErrSignatureInvalid`. -/
theorem c1_header_signature_wins_witness :
    samplePush.Secret = "topsecret" ∧
    Parse sampleDec validateNever (resolveKey "topsecret") "push" "sha256=deadbeef" "" [] =
      (some (scm.Webhook.push (convertPushHook samplePush)), some ParseError.signatureInvalid) := by
  refine ⟨rfl, ?_⟩
  have h := c1_header_signature_wins sampleDec validateNever (resolveKey "topsecret")
    "push" "sha256=deadbeef" "" [] (scm.Webhook.push (convertPushHook samplePush))
    "topsecret" "topsecret" rfl rfl (by decide) (by decide)
  simpa [validateNever] using h

/-- C3: when the caller's resolver returns an empty key and no error, a
decoded delivery is returned successfully with no signature check and no
embedded-secret comparison: the outcome is `(hook, nil)` for every
verifier, every header signature and every form secret. -/
theorem c3_empty_key_disables_verification (dec : Decoders)
    (validate : Bytes → String → String → Bool)
    (fn : scm.Webhook → Except String String)
    (event sigH form : String) (body : Bytes)
    (hook : scm.Webhook) (secret0 : String)
    (hroute : routeEvent dec event (body.take 10000000) = (some hook, secret0, none))
    (hfn : fn hook = Except.ok "") :
    Parse dec validate fn event sigH form body = (some hook, none) := by
  rw [parse_auth_eq dec validate fn event sigH form body hook secret0 hroute]
  dsimp only
  rw [hfn]
  rfl

/-- Witness for C3: empty key, a rejecting verifier, a non-empty header
signature and a mismatched form secret still give a clean success. -/
theorem c3_empty_key_disables_verification_witness :
    Parse sampleDec validateNever (resolveKey "") "push" "sha256=deadbeef" "mismatch" [] =
      (some (scm.Webhook.push (convertPushHook samplePush)), none) :=
  c3_empty_key_disables_verification sampleDec validateNever (resolveKey "")
    "push" "sha256=deadbeef" "mismatch" [] (scm.Webhook.push (convertPushHook samplePush))
    "topsecret" rfl rfl

/-- C4: an event-kind header outside the supported set yields no event and
`UnknownWebhook` carrying that header value; a create or delete payload
whose decoded ref type is neither "tag" nor "branch" yields no event and
`UnknownWebhook` carrying that ref type. -/
theorem c4_unknown_discriminators (dec : Decoders)
    (validate : Bytes → String → String → Bool)
    (fn : scm.Webhook → Except String String)
    (event sigH form : String) (body : Bytes) :
    (event ∉ (["push", "create", "delete", "issues", "issue_comment",
               "pull_request", "reviewed"] : List String) →
      Parse dec validate fn event sigH form body =
        (none, some (ParseError.unknownWebhook event))) ∧
    (∀ ev2 : String, ev2 = "create" ∨ ev2 = "delete" →
      (dec.create (body.take 10000000)).value.RefType ≠ "tag" →
      (dec.create (body.take 10000000)).value.RefType ≠ "branch" →
      Parse dec validate fn ev2 sigH form body =
        (none, some (ParseError.unknownWebhook
          (dec.create (body.take 10000000)).value.RefType))) := by
  constructor
  · intro hev
    refine parse_err_eq dec validate fn event sigH form body none "" _ ?_
    unfold routeEvent
    split <;> simp_all
  · intro ev2 hev2 ht hb
    refine parse_err_eq dec validate fn ev2 sigH form body none "" _ ?_
    rcases hev2 with h | h <;> subst h
    · simp only [routeEvent, parseCreateHook]
    · simp only [routeEvent, parseDeleteHook]

/-- Witness for C4: an unsupported event name and a create payload whose
ref type is "repository". -/
theorem c4_unknown_discriminators_witness :
    Parse sampleDec validateAlways (resolveKey "") "star" "" "" [] =
      (none, some (ParseError.unknownWebhook "star")) ∧
    Parse weirdCreateDec validateAlways (resolveKey "") "create" "" "" [] =
      (none, some (ParseError.unknownWebhook "repository")) := by
  constructor
  · exact (c4_unknown_discriminators sampleDec validateAlways (resolveKey "")
      "star" "" "" []).1 (by decide)
  · simpa using (c4_unknown_discriminators weirdCreateDec validateAlways (resolveKey "")
      "create" "" "" []).2 "create" (Or.inl rfl) (by decide) (by decide)

/-- C10: when the routed payload carries no embedded secret, the "secret"
form value stands in for it: with no header signature and a non-empty
resolved key, the delivery authenticates exactly when the form secret
equals the key. Moreover every non-push route yields an empty embedded
secret, and the push route's embedded secret is the payload's `secret`
field. -/
theorem c10_form_secret_fallback (dec : Decoders)
    (validate : Bytes → String → String → Bool)
    (fn : scm.Webhook → Except String String)
    (event sigH form : String) (body : Bytes)
    (hook : scm.Webhook) (key : String)
    (hroute : routeEvent dec event (body.take 10000000) = (some hook, "", none))
    (hfn : fn hook = Except.ok key) (hkey : key ≠ "") (hsig : sigH = "") :
    (Parse dec validate fn event sigH form body =
      (some hook, if form = key then none else some ParseError.signatureInvalid)) ∧
    (∀ (dec2 : Decoders) (ev2 : String) (data2 : Bytes),
      ev2 ∈ (["create", "delete", "issues", "issue_comment",
              "pull_request", "reviewed"] : List String) →
      (routeEvent dec2 ev2 data2).2.1 = "") ∧
    (∀ (dec2 : Decoders) (data2 : Bytes),
      (routeEvent dec2 "push" data2).2.1 = (dec2.push data2).value.Secret) := by
  refine ⟨?_, ?_, ?_⟩
  · rw [parse_auth_eq dec validate fn event sigH form body hook "" hroute]
    dsimp only
    rw [hfn]
    subst hsig
    by_cases hf0 : form = ""
    · subst hf0
      have hfk : ¬("" = key) := fun hcon => hkey hcon.symm
      simp [hkey, hfk]
    · by_cases hfk : form = key
      · simp [hkey, hf0, hfk]
      · simp [hkey, hf0, hfk]
  · intro dec2 ev2 data2 hmem
    simp only [List.mem_cons, List.not_mem_nil, or_false] at hmem
    rcases hmem with h | h | h | h | h | h
    · subst h
      rcases hp : parseCreateHook dec2 data2 with ⟨h1, e1⟩
      simp [routeEvent, hp]
    · subst h
      rcases hp : parseDeleteHook dec2 data2 with ⟨h1, e1⟩
      simp [routeEvent, hp]
    · subst h
      rcases hp : parseIssueHook dec2 data2 with ⟨h1, e1⟩
      simp [routeEvent, hp]
    · subst h
      rcases hp : parseIssueCommentHook dec2 data2 with ⟨h1, e1⟩
      simp [routeEvent, hp]
    · subst h
      rcases hp : parsePullRequestHook dec2 data2 with ⟨h1, e1⟩
      simp [routeEvent, hp]
    · subst h
      rcases hp : parsePullRequestReviewHook dec2 data2 with ⟨h1, e1⟩
      simp [routeEvent, hp]
  · intro dec2 data2
    rfl

/-- Witness for C10: a push payload with an empty secret field, no header
signature, and the matching key supplied as the form value. -/
theorem c10_form_secret_fallback_witness :
    Parse noSecretDec validateNever (resolveKey "sesame") "push" "" "sesame" [] =
      (some (scm.Webhook.push (convertPushHook samplePushNoSecret)), none) := by
  simpa using (c10_form_secret_fallback noSecretDec validateNever (resolveKey "sesame")
    "push" "" "sesame" [] (scm.Webhook.push (convertPushHook samplePushNoSecret))
    "sesame" rfl rfl (by decide) rfl).1

/-- C2 counterexample: an oversized body (10,000,001 bytes) does not make
`Parse` fail with a PayloadTooLarge error — with an empty resolved key the
delivery even succeeds outright, on the truncated prefix. -/
theorem c2_counterexample :
    10000000 < (List.replicate 10000001 (0 : Nat)).length ∧
    Parse sampleDec validateAlways (resolveKey "") "push" "" ""
        (List.replicate 10000001 (0 : Nat)) =
      (some (scm.Webhook.push (convertPushHook samplePush)), none) := by
  constructor
  · rw [List.length_replicate]
    norm_num
  · rfl

/-- C2 amended: the body is read through a 10,000,000-byte limit reader, so
the outcome depends only on the first 10,000,000 body bytes — bytes past
the cap are never read — but an oversized body is silently truncated
rather than rejected. -/
theorem c2_amended_body_cap (dec : Decoders)
    (validate : Bytes → String → String → Bool)
    (fn : scm.Webhook → Except String String)
    (event sigH form : String) (b1 b2 : Bytes)
    (h : b1.take 10000000 = b2.take 10000000) :
    Parse dec validate fn event sigH form b1 =
      Parse dec validate fn event sigH form b2 := by
  simp only [Parse]
  rw [h]

/-- Witness for the amended C2 at two oversized bodies agreeing on their
first 10,000,000 bytes. -/
theorem c2_amended_body_cap_witness :
    (List.replicate 10000001 (0 : Nat)).take 10000000 =
      (List.replicate 10000002 (0 : Nat)).take 10000000 ∧
    Parse sampleDec validateAlways (resolveKey "") "push" "" ""
        (List.replicate 10000001 (0 : Nat)) =
      Parse sampleDec validateAlways (resolveKey "") "push" "" ""
        (List.replicate 10000002 (0 : Nat)) := by
  have h : (List.replicate 10000001 (0 : Nat)).take 10000000 =
      (List.replicate 10000002 (0 : Nat)).take 10000000 := by
    rw [List.take_replicate, List.take_replicate]
    norm_num
  exact ⟨h, c2_amended_body_cap sampleDec validateAlways (resolveKey "")
    "push" "" "" _ _ h⟩

/-- C5 counterexample: a reviewed delivery whose payload has a fully
populated sender is accepted by `Parse`, yet the returned review event's
`Sender` is the empty zero value. -/
theorem c5_counterexample :
    sampleReviewPayload.Sender.UserName = "alice" ∧
    Parse sampleDec validateAlways (resolveKey "") "reviewed" "" "" [] =
      (some (scm.Webhook.review (convertPullRequestReviewHook sampleReviewPayload)), none) ∧
    (convertPullRequestReviewHook sampleReviewPayload).Sender.Login = "" :=
  ⟨rfl, rfl, rfl⟩

/-- C5 amended: every converted event carries the Repository converted
from the payload's repository field and the Sender converted from the
payload's sender field — hence non-empty whenever those are — except the
pull-request review variant, whose `Sender` is left at its zero value (the
sender identity is carried in `Review.Author` instead). -/
theorem c5_amended_repo_sender (p : pushHook) (c : createHook) (i : issueHook)
    (pr : pullRequestHook) (rv : pullRequestReviewHook) (a : scm.Action)
    (u : GiteaUser) (r : GiteaRepository) :
    ((convertPushHook p).Repo = convertRepository p.Repository ∧
     (convertPushHook p).Sender = convertUser p.Sender) ∧
    ((convertTagHook c a).Repo = convertRepository c.Repository ∧
     (convertTagHook c a).Sender = convertUser c.Sender) ∧
    ((convertBranchHook c a).Repo = convertRepository c.Repository ∧
     (convertBranchHook c a).Sender = convertUser c.Sender) ∧
    ((convertIssueHook i).Repo = convertRepository i.Repository ∧
     (convertIssueHook i).Sender = convertUser i.Sender) ∧
    ((convertIssueCommentHook i).Repo = convertRepository i.Repository ∧
     (convertIssueCommentHook i).Sender = convertUser i.Sender) ∧
    ((convertPullRequestCommentHook i).Repo = convertRepository i.Repository ∧
     (convertPullRequestCommentHook i).Sender = convertUser i.Sender) ∧
    ((convertPullRequestHook pr).Repo = convertRepository pr.Repository ∧
     (convertPullRequestHook pr).Sender = convertUser pr.Sender) ∧
    ((convertPullRequestReviewHook rv).Repo = convertRepository rv.Repository ∧
     (convertPullRequestReviewHook rv).Sender = (default : scm.User) ∧
     (convertPullRequestReviewHook rv).Review.Author = convertUser rv.Sender) ∧
    ((convertUser u).Login = u.UserName ∧
     (convertRepository r).Name = r.Name) := by
  refine ⟨⟨?_, ?_⟩, ⟨rfl, rfl⟩, ⟨rfl, rfl⟩, ⟨rfl, rfl⟩, ⟨rfl, rfl⟩,
    ⟨rfl, rfl⟩, ⟨rfl, rfl⟩, ⟨rfl, rfl, rfl⟩, rfl, rfl⟩
  · cases hc : p.Commits <;> simp [convertPushHook, hc]
  · cases hc : p.Commits <;> simp [convertPushHook, hc]

/-- C7 counterexample: a body that is not valid JSON, routed as a create
event, yields `UnknownWebhook ""` (from the zero-valued ref type) instead
of surfacing the decoding error. -/
theorem c7_counterexample :
    (badDec.create (([] : Bytes).take 10000000)).error = some "invalid json" ∧
    Parse badDec validateAlways (resolveKey "") "create" "" "" [] =
      (none, some (ParseError.unknownWebhook "")) :=
  ⟨rfl, rfl⟩

/-- C7 amended: for push, issues, issue_comment, pull_request and reviewed
events a failed decode surfaces the decoding error and no event; for
create and delete events the decoding error is surfaced only when the
(possibly partially decoded) ref type is "tag" or "branch" — otherwise
`Parse` returns `UnknownWebhook` carrying the defaulted ref type, masking
the decode error. In every case no event is returned. -/
theorem c7_amended_decode_errors (dec : Decoders)
    (validate : Bytes → String → String → Bool)
    (fn : scm.Webhook → Except String String)
    (sigH form : String) (body : Bytes) :
    (∀ e, (dec.push (body.take 10000000)).error = some e →
      Parse dec validate fn "push" sigH form body =
        (none, some (ParseError.decodeError e))) ∧
    (∀ e, (dec.issue (body.take 10000000)).error = some e →
      Parse dec validate fn "issues" sigH form body =
        (none, some (ParseError.decodeError e)) ∧
      Parse dec validate fn "issue_comment" sigH form body =
        (none, some (ParseError.decodeError e))) ∧
    (∀ e, (dec.pullRequest (body.take 10000000)).error = some e →
      Parse dec validate fn "pull_request" sigH form body =
        (none, some (ParseError.decodeError e))) ∧
    (∀ e, (dec.review (body.take 10000000)).error = some e →
      Parse dec validate fn "reviewed" sigH form body =
        (none, some (ParseError.decodeError e))) ∧
    (∀ e, (dec.create (body.take 10000000)).error = some e →
      (((dec.create (body.take 10000000)).value.RefType = "tag" ∨
        (dec.create (body.take 10000000)).value.RefType = "branch") →
        Parse dec validate fn "create" sigH form body =
          (none, some (ParseError.decodeError e)) ∧
        Parse dec validate fn "delete" sigH form body =
          (none, some (ParseError.decodeError e))) ∧
      ((dec.create (body.take 10000000)).value.RefType ≠ "tag" →
       (dec.create (body.take 10000000)).value.RefType ≠ "branch" →
        Parse dec validate fn "create" sigH form body =
          (none, some (ParseError.unknownWebhook
            (dec.create (body.take 10000000)).value.RefType)) ∧
        Parse dec validate fn "delete" sigH form body =
          (none, some (ParseError.unknownWebhook
            (dec.create (body.take 10000000)).value.RefType)))) := by
  refine ⟨?_, ?_, ?_, ?_, ?_⟩
  · intro e he
    apply parse_err_eq dec validate fn "push" sigH form body
    simp only [routeEvent, parsePushHook]
    rw [he]
    rfl
  · intro e he
    constructor
    · apply parse_err_eq dec validate fn "issues" sigH form body
      simp only [routeEvent, parseIssueHook]
      rw [he]
      rfl
    · rcases hsome : (dec.issue (body.take 10000000)).value.Issue.PullRequest with _ | pm <;>
        · apply parse_err_eq dec validate fn "issue_comment" sigH form body
          simp only [routeEvent, parseIssueCommentHook]
          rw [hsome, he]
          rfl
  · intro e he
    apply parse_err_eq dec validate fn "pull_request" sigH form body
    simp only [routeEvent, parsePullRequestHook]
    rw [he]
    rfl
  · intro e he
    apply parse_err_eq dec validate fn "reviewed" sigH form body
    simp only [routeEvent, parsePullRequestReviewHook]
    rw [he]
    rfl
  · intro e he
    constructor
    · intro htb
      rcases htb with h | h
      · constructor
        · refine parse_err_eq dec validate fn "create" sigH form body
            (some (scm.Webhook.tag (convertTagHook
              (dec.create (body.take 10000000)).value scm.Action.Create))) "" _ ?_
          simp only [routeEvent, parseCreateHook]
          rw [h, he]
          rfl
        · refine parse_err_eq dec validate fn "delete" sigH form body
            (some (scm.Webhook.tag (convertTagHook
              (dec.create (body.take 10000000)).value scm.Action.Delete))) "" _ ?_
          simp only [routeEvent, parseDeleteHook]
          rw [h, he]
          rfl
      · constructor
        · refine parse_err_eq dec validate fn "create" sigH form body
            (some (scm.Webhook.branch (convertBranchHook
              (dec.create (body.take 10000000)).value scm.Action.Create))) "" _ ?_
          simp only [routeEvent, parseCreateHook]
          rw [h, he]
          rfl
        · refine parse_err_eq dec validate fn "delete" sigH form body
            (some (scm.Webhook.branch (convertBranchHook
              (dec.create (body.take 10000000)).value scm.Action.Delete))) "" _ ?_
          simp only [routeEvent, parseDeleteHook]
          rw [h, he]
          rfl
    · intro ht hb
      constructor
      · refine parse_err_eq dec validate fn "create" sigH form body none "" _ ?_
        simp only [routeEvent, parseCreateHook]
      · refine parse_err_eq dec validate fn "delete" sigH form body none "" _ ?_
        simp only [routeEvent, parseDeleteHook]

/-- Witness for the amended C7: a push body that fails to decode, a
malformed create body masked as `UnknownWebhook ""`, and a truncated
create body whose partial decode reached ref type "tag" and surfaces the
decode error. -/
theorem c7_amended_decode_errors_witness :
    Parse badDec validateAlways (resolveKey "") "push" "" "" [] =
      (none, some (ParseError.decodeError "invalid json")) ∧
    Parse badDec validateAlways (resolveKey "") "create" "" "" [] =
      (none, some (ParseError.unknownWebhook "")) ∧
    Parse badTagDec validateAlways (resolveKey "") "create" "" "" [] =
      (none, some (ParseError.decodeError "unexpected end of JSON input")) := by
  refine ⟨?_, ?_, ?_⟩
  · exact (c7_amended_decode_errors badDec validateAlways (resolveKey "")
      "" "" []).1 "invalid json" rfl
  · simpa using (((c7_amended_decode_errors badDec validateAlways (resolveKey "")
      "" "" []).2.2.2.2 "invalid json" rfl).2 (by decide) (by decide)).1
  · exact (((c7_amended_decode_errors badTagDec validateAlways (resolveKey "")
      "" "" []).2.2.2.2 "unexpected end of JSON input" rfl).1 (Or.inl rfl)).1
